import Mathlib

/-!
Shallow embedding of `src/pandana/pandana.py` (module `pandana.pandana`).

The Python module is a thin host wrapper over a compiled engine `_pyaccess`
whose sources are not part of this repository snapshot; wherever a claim is
decided by engine behaviour, the corresponding definition is modelled from the
specification and says so in its doc comment.  Everything else is translated
directly from the Python source: module-level globals become an explicit state
record, asserts and `KeyError`/`NameError` raising lookups become `Option`
results (`none` = the call raises), pandas Series become association lists of
(index key, value) pairs, and floats are modelled as `Rat`.
-/

namespace Pandana

/-- Module-level globals `MAX_NUM_NETWORKS` and `NUM_NETWORKS`
(pandana.py lines 10-11), both initialised to 0. -/
structure GlobalState where
  MAX_NUM_NETWORKS : Int
  NUM_NETWORKS : Int
deriving DecidableEq

/-- The state of the module as first imported: both globals are 0. -/
def initState : GlobalState := ⟨0, 0⟩

/-- `reserve_num_graphs(num)` (pandana.py lines 27-33): asserts
`MAX_NUM_NETWORKS == 0`, asserts `num > 0`, then sets `MAX_NUM_NETWORKS = num`
and calls `_pyaccess.create_graphs(num)`.  `none` models a failed assert. -/
def reserve_num_graphs (st : GlobalState) (num : Int) : Option GlobalState :=
  if st.MAX_NUM_NETWORKS = 0 then
    if num > 0 then some { st with MAX_NUM_NETWORKS := num }
    else none
  else none

/-- The global-registry part of `Network.__init__` (pandana.py lines 109-117):
if `MAX_NUM_NETWORKS == 0` it first calls `reserve_num_graphs(1)`, then asserts
`NUM_NETWORKS < MAX_NUM_NETWORKS`, takes `graph_no = NUM_NETWORKS` and
increments `NUM_NETWORKS`.  Returns the new state and the assigned slot. -/
def network_init (st : GlobalState) : Option (GlobalState × Int) :=
  let st1? := if st.MAX_NUM_NETWORKS = 0 then reserve_num_graphs st 1 else some st
  match st1? with
  | none => none
  | some st1 =>
    if st1.NUM_NETWORKS < st1.MAX_NUM_NETWORKS then
      some ({ st1 with NUM_NETWORKS := st1.NUM_NETWORKS + 1 }, st1.NUM_NETWORKS)
    else none

/-- Module-level dict `AGGREGATIONS` (pandana.py lines 13-18). -/
def AGGREGATIONS : List (String × Nat) :=
  [("SUM", 0), ("AVE", 1), ("STD", 5), ("COUNT", 6)]

/-- Module-level dict `DECAYS` (pandana.py lines 20-24). -/
def DECAYS : List (String × Nat) :=
  [("EXP", 0), ("LINEAR", 1), ("FLAT", 2)]

/-- Python dict subscript `m[k]`: `some` value, or `none` for a `KeyError`. -/
def dictLookup (m : List (String × Nat)) (k : String) : Option Nat :=
  (m.find? (fun p => p.1 == k)).map Prod.snd

/-- Python `str.upper()`, modelled character-wise (identical to the library
`String.toUpper`, restated over the character list so that it evaluates by
kernel reduction). -/
def pyUpper (s : String) : String := ⟨s.data.map Char.toUpper⟩

/-- The per-Network attributes set by `Network.__init__` that the queries use:
`node_idx.index` (= `nodes_df.index`, the caller's node ids in original
order — `node_ids` property, lines 71-73 and 129-130), the edge-weight column
names (line 125), the variable names registered by `set` (line 126), and the
slot index (line 116). -/
structure Network where
  node_ids : List Int
  impedance_names : List String
  variable_names : List String
  graph_no : Nat

/-- `Network._node_indexes(node_ids)` (pandana.py lines 62-69): a left merge of
the queried ids against `node_idx` (which maps each constructor node id to its
dense position), so an id absent from the network yields a missing value
(`none`, pandas NaN). -/
def node_indexes (ctor_ids : List Int) (ids : List Int) : List (Option Nat) :=
  ids.map (fun i => ctor_ids.indexOf? i)

/-- `Network.set(node_ids, variable, name)` (pandana.py lines 143-203), the
observable data part: builds a frame of (dense node index, value) rows, drops
any row with a missing value (`df.dropna(how="any")`), and would print the
"Removed %d rows ..." diagnostic only when `newl - l > 0` (line 186) where `l`
and `newl` are the row counts before and after the drop.  A `variable=None`
call corresponds to `vals` being all `some 1`.  Returns the surviving rows
passed on to the engine and whether the diagnostic is printed; no path
raises. -/
def network_set (ctor_ids : List Int) (set_ids : List Int)
    (vals : List (Option Rat)) : List (Nat × Rat) × Bool :=
  let idxs := node_indexes ctor_ids set_ids
  let df := idxs.zip vals
  let l := df.length
  let df2 := df.filterMap (fun p =>
    match p.1, p.2 with
    | some i, some v => some (i, v)
    | _, _ => none)
  let newl := df2.length
  (df2, decide ((newl : Int) - (l : Int) > 0))

/-- Modelled from the spec: the engine call
`_pyaccess.get_all_aggregate_accessibility_variables(distance, varnum, agg,
decay, gno, imp_num)` is not in src/; per the spec it returns a
"dense float array, length = node count, ordered by dense node index".  The
numeric content of the aggregation is abstracted as a per-dense-index value
function `val` for the given call parameters. -/
def get_all_aggregate_accessibility_variables (distance : Rat)
    (varnum agg dec gno imp_num : Nat) (numNodes : Nat) (val : Nat → Rat) :
    List Rat :=
  (List.range numNodes).map val

/-- `Network.aggregate(distance, type, decay, imp_name, name)` (pandana.py
lines 222-288): looks `type.upper()` up in `AGGREGATIONS` and `decay.upper()`
in `DECAYS` (a `KeyError`, i.e. `none`, when absent), resolves `imp_name`
(defaulting to the unique impedance, asserting there is exactly one), asserts
the impedance and the variable name are registered, calls the engine, and
returns `pd.Series(res, index=self.node_ids)` — modelled as the list of
(node id, value) pairs in order. -/
def Network.aggregate (net : Network) (val : Nat → Rat) (distance : Rat)
    (type decay : String) (imp_name : Option String) (name : String) :
    Option (List (Int × Rat)) :=
  match dictLookup AGGREGATIONS (pyUpper type) with
  | none => none
  | some agg =>
  match dictLookup DECAYS (pyUpper decay) with
  | none => none
  | some dec =>
  let imp_resolved : Option String :=
    match imp_name with
    | none =>
      if net.impedance_names.length = 1 then some (net.impedance_names.headD "")
      else none
    | some s => some s
  match imp_resolved with
  | none => none
  | some impName =>
    if impName ∈ net.impedance_names then
      if name ∈ net.variable_names then
        let imp_num := net.impedance_names.indexOf impName
        let varnum := net.variable_names.indexOf name
        some (net.node_ids.zip
          (get_all_aggregate_accessibility_variables distance varnum agg dec
            net.graph_no imp_num net.node_ids.length val))
      else none
    else none

lemma dictLookup_isSome (m : List (String × Nat)) (k : String) :
    (dictLookup m k).isSome ↔ k ∈ m.map Prod.fst := by
  simp [dictLookup, List.find?_isSome, List.mem_map]

lemma dictLookup_eq_none (m : List (String × Nat)) (k : String) :
    dictLookup m k = none ↔ k ∉ m.map Prod.fst := by
  rw [← dictLookup_isSome m k, Option.not_isSome_iff_eq_none]

/-- C10: `Network.set` never fails on unknown node ids or rows with missing
values — such rows are silently dropped by `dropna` before the variable is
initialized (`network_set` is total) — and the "Removed %d rows" diagnostic is
never printed on any input, because its guard tests `newl - l > 0` while
`newl` (rows after dropping) can never exceed `l` (rows before dropping). -/
theorem C10_set_diagnostic_never_printed (ctor_ids set_ids : List Int)
    (vals : List (Option Rat)) :
    (network_set ctor_ids set_ids vals).2 = false := by
  have h := List.length_filterMap_le
    (fun p : Option Nat × Option Rat =>
      match p.1, p.2 with
      | some i, some v => some (i, v)
      | _, _ => none)
    ((node_indexes ctor_ids set_ids).zip vals)
  simp only [network_set]
  rw [decide_eq_false_iff_not]
  omega

/-- C2: with a recognized aggregation kind, decay kind, set variable name and
declared impedance name, `aggregate` returns one float per graph node, as a
Series indexed by exactly the node ids passed to the constructor in their
original order. -/
theorem C2_aggregate_dense_per_node (net : Network) (val : Nat → Rat)
    (distance : Rat) (type decay name impName : String)
    (hagg : (dictLookup AGGREGATIONS (pyUpper type)).isSome)
    (hdec : (dictLookup DECAYS (pyUpper decay)).isSome)
    (himp : impName ∈ net.impedance_names)
    (hname : name ∈ net.variable_names) :
    ∃ s, net.aggregate val distance type decay (some impName) name = some s ∧
      s.map Prod.fst = net.node_ids ∧ s.length = net.node_ids.length := by
  obtain ⟨a, ha⟩ := Option.isSome_iff_exists.mp hagg
  obtain ⟨d, hd⟩ := Option.isSome_iff_exists.mp hdec
  refine ⟨net.node_ids.zip ((List.range net.node_ids.length).map val),
    ?_, ?_, ?_⟩
  · simp only [Network.aggregate, ha, hd]
    rw [if_pos himp, if_pos hname]
    rfl
  · exact List.map_fst_zip _ _ (by simp)
  · simp [List.length_zip]

/-- Witness for C2 on a concrete three-node network. -/
theorem C2_aggregate_dense_per_node_witness :
    ∃ s, Network.aggregate ⟨[10, 20, 30], ["dist"], ["tmp"], 0⟩ (fun _ => 0) 5
      "sum" "flat" (some "dist") "tmp" = some s ∧
      s.map Prod.fst = [10, 20, 30] ∧
      s.length = ([10, 20, 30] : List Int).length :=
  C2_aggregate_dense_per_node ⟨[10, 20, 30], ["dist"], ["tmp"], 0⟩ (fun _ => 0)
    5 "sum" "flat" "tmp" "dist" (by decide) (by decide) (by decide) (by decide)

/-- C3: `aggregate` fails when the (upper-cased) aggregation kind is not one
of SUM/AVE/STD/COUNT, when the decay kind is not one of EXP/LINEAR/FLAT, when
the impedance name is not among the edge-weight columns declared at
construction, or when the variable name was never set on this Network; with
all four recognized it does not fail on name validation.  It is a pure query,
so a failure has no partial effect. -/
theorem C3_aggregate_name_validation (net : Network) (val : Nat → Rat)
    (distance : Rat) (type decay name : String) (imp : Option String) :
    (pyUpper type ∉ (["SUM", "AVE", "STD", "COUNT"] : List String) →
      net.aggregate val distance type decay imp name = none) ∧
    (pyUpper decay ∉ (["EXP", "LINEAR", "FLAT"] : List String) →
      net.aggregate val distance type decay imp name = none) ∧
    (∀ s, imp = some s → s ∉ net.impedance_names →
      net.aggregate val distance type decay imp name = none) ∧
    (name ∉ net.variable_names →
      net.aggregate val distance type decay imp name = none) ∧
    (∀ s, imp = some s →
      pyUpper type ∈ (["SUM", "AVE", "STD", "COUNT"] : List String) →
      pyUpper decay ∈ (["EXP", "LINEAR", "FLAT"] : List String) →
      s ∈ net.impedance_names → name ∈ net.variable_names →
      ∃ r, net.aggregate val distance type decay imp name = some r) := by
  have hA : AGGREGATIONS.map Prod.fst = ["SUM", "AVE", "STD", "COUNT"] := rfl
  have hD : DECAYS.map Prod.fst = ["EXP", "LINEAR", "FLAT"] := rfl
  refine ⟨fun h => ?_, fun h => ?_, fun s hs h => ?_, fun h => ?_,
    fun s hs h1 h2 h3 h4 => ?_⟩
  · have : dictLookup AGGREGATIONS (pyUpper type) = none :=
      (dictLookup_eq_none _ _).mpr (hA ▸ h)
    simp [Network.aggregate, this]
  · have : dictLookup DECAYS (pyUpper decay) = none :=
      (dictLookup_eq_none _ _).mpr (hD ▸ h)
    simp only [Network.aggregate]
    cases dictLookup AGGREGATIONS (pyUpper type) with
    | none => rfl
    | some a => simp [this]
  · subst hs
    simp only [Network.aggregate]
    cases dictLookup AGGREGATIONS (pyUpper type) with
    | none => rfl
    | some a =>
      cases dictLookup DECAYS (pyUpper decay) with
      | none => rfl
      | some d => simp [h]
  · simp only [Network.aggregate]
    cases dictLookup AGGREGATIONS (pyUpper type) with
    | none => rfl
    | some a =>
      cases dictLookup DECAYS (pyUpper decay) with
      | none => rfl
      | some d =>
        cases imp with
        | some s => simp [h]
        | none =>
          by_cases hl : net.impedance_names.length = 1
          · simp [hl, h]
          · simp [hl]
  · subst hs
    have ht : (dictLookup AGGREGATIONS (pyUpper type)).isSome :=
      (dictLookup_isSome _ _).mpr (hA ▸ h1)
    have hdc : (dictLookup DECAYS (pyUpper decay)).isSome :=
      (dictLookup_isSome _ _).mpr (hD ▸ h2)
    obtain ⟨a, ha⟩ := Option.isSome_iff_exists.mp ht
    obtain ⟨d, hd⟩ := Option.isSome_iff_exists.mp hdc
    refine ⟨net.node_ids.zip ((List.range net.node_ids.length).map val), ?_⟩
    simp only [Network.aggregate, ha, hd]
    rw [if_pos h3, if_pos h4]
    rfl

/-- Witness for C3 on a concrete network: an unrecognized aggregation kind
fails, and fully recognized names succeed. -/
theorem C3_aggregate_name_validation_witness :
    Network.aggregate ⟨[10], ["dist"], ["tmp"], 0⟩ (fun _ => 0) 5
      "median" "flat" (some "dist") "tmp" = none ∧
    ∃ r, Network.aggregate ⟨[10], ["dist"], ["tmp"], 0⟩ (fun _ => 0) 5
      "ave" "exp" (some "dist") "tmp" = some r :=
  ⟨(C3_aggregate_name_validation ⟨[10], ["dist"], ["tmp"], 0⟩ (fun _ => 0) 5
      "median" "flat" "tmp" (some "dist")).1 (by decide),
   (C3_aggregate_name_validation ⟨[10], ["dist"], ["tmp"], 0⟩ (fun _ => 0) 5
      "ave" "exp" "tmp" (some "dist")).2.2.2.2 "dist" rfl (by decide)
      (by decide) (by decide) (by decide)⟩

/-- Modelled from the spec: a graph as seen by the range-query engine
(`_pyaccess.precompute_range` and the search behind it are not in src/):
dense node indexes `0..n-1` and directed edges `(from, to, weight)` carrying a
nonnegative weight under the chosen reference impedance (weights ≥ 0 is a
stated data-model invariant, so weights are `Nat` here). -/
structure SpecGraph where
  n : Nat
  edges : List (Nat × Nat × Nat)

/-- One relaxation of node `v`: the best of its current label and every
incoming edge's source label plus that edge's weight. -/
def relaxNode (edges : List (Nat × Nat × Nat)) (d : List (Option Nat))
    (v : Nat) : Option Nat :=
  edges.foldl (fun acc e =>
    if e.2.1 = v then
      match d.getD e.1 none with
      | none => acc
      | some du =>
        match acc with
        | none => some (du + e.2.2)
        | some a => some (min a (du + e.2.2))
    else acc) (d.getD v none)

/-- One relaxation round over every node. -/
def relaxAll (g : SpecGraph) (d : List (Option Nat)) : List (Option Nat) :=
  (List.range g.n).map (relaxNode g.edges d)

/-- Modelled from the spec: the per-source shortest-path distances under the
reference impedance, computed as `g.n` relaxation rounds from the source label
0 (`none` = unreachable).  The engine's cutoff-bounded label-setting search of
§4.2 settles exactly the nodes whose shortest distance is within the cutoff,
at that distance, so these distances do not depend on the cutoff. -/
def shortestDists (g : SpecGraph) (s : Nat) : List (Option Nat) :=
  (relaxAll g)^[g.n]
    ((List.range g.n).map (fun v => if v = s then some 0 else none))

/-- Modelled from the spec: the `RangeCacheEntry` rows for one source node —
"holds, for each source node, the set of (target node, per-impedance
distance) pairs reachable within cutoff" — i.e. the nodes whose shortest
distance from `s` is at most `cutoff`, paired with that distance. -/
def rangeEntry (g : SpecGraph) (s : Nat) (cutoff : Nat) : List (Nat × Nat) :=
  (List.range g.n).filterMap (fun v =>
    match (shortestDists g s).getD v none with
    | none => none
    | some dv => if dv ≤ cutoff then some (v, dv) else none)

lemma mem_rangeEntry (g : SpecGraph) (s c v dv : Nat) :
    (v, dv) ∈ rangeEntry g s c ↔
      v < g.n ∧ (shortestDists g s).getD v none = some dv ∧ dv ≤ c := by
  simp only [rangeEntry, List.mem_filterMap, List.mem_range]
  constructor
  · rintro ⟨a, ha, hf⟩
    cases hd : (shortestDists g s).getD a none with
    | none => rw [hd] at hf; cases hf
    | some da =>
      rw [hd] at hf
      simp only [] at hf
      split at hf
      · cases hf
        exact ⟨ha, hd, by assumption⟩
      · cases hf
  · rintro ⟨hv, hd, hc⟩
    exact ⟨v, hv, by rw [hd]; simp [hc]⟩

/-- C1: for a fixed graph and impedance selection, the reachable set for
cutoff `d1` is a subset — by node membership and per-node distance — of the
reachable set for any `d2 ≥ d1`, and trimming the `d2` cache entry to `d1`
yields exactly the `d1` entry, so after `precompute(d2)` a query for any
`d1 ≤ d2` is answered from the existing cache without recomputation. -/
theorem C1_range_cache_monotone (g : SpecGraph) (s : Nat) (d1 d2 : Nat)
    (h : d1 ≤ d2) :
    (∀ v dv, (v, dv) ∈ rangeEntry g s d1 → (v, dv) ∈ rangeEntry g s d2) ∧
    (rangeEntry g s d2).filter (fun p => p.2 ≤ d1) = rangeEntry g s d1 := by
  constructor
  · intro v dv hm
    rw [mem_rangeEntry] at hm ⊢
    exact ⟨hm.1, hm.2.1, hm.2.2.trans h⟩
  · rw [rangeEntry, List.filter_filterMap]
    apply List.filterMap_congr
    intro v hv
    cases hd : (shortestDists g s).getD v none with
    | none => simp [rangeEntry]
    | some dv =>
      by_cases h2 : dv ≤ d2
      · by_cases h1 : dv ≤ d1
        · simp [h2, h1, Option.filter]
        · simp [h2, h1, Option.filter]
      · have h1 : ¬ dv ≤ d1 := fun hc => h2 (hc.trans h)
        simp [h2, h1]

/-- Witness for C1 on a concrete three-node path graph: the cutoff-1 entry
evaluates to its two in-range nodes, and trimming the cutoff-2 entry to 1
recovers it. -/
theorem C1_range_cache_monotone_witness :
    rangeEntry ⟨3, [(0, 1, 1), (1, 2, 1)]⟩ 0 1 = [(0, 0), (1, 1)] ∧
    (rangeEntry ⟨3, [(0, 1, 1), (1, 2, 1)]⟩ 0 2).filter (fun p => p.2 ≤ 1) =
      rangeEntry ⟨3, [(0, 1, 1), (1, 2, 1)]⟩ 0 1 :=
  ⟨by decide,
   (C1_range_cache_monotone ⟨3, [(0, 1, 1), (1, 2, 1)]⟩ 0 1 2 (by decide)).2⟩

/-- A coordinate pair (one row of the x/y columns). -/
structure XY where
  x : Rat
  y : Rat
deriving DecidableEq

/-- Squared Euclidean distance between two coordinate pairs. -/
def distSq (a b : XY) : Rat :=
  (a.x - b.x) * (a.x - b.x) + (a.y - b.y) * (a.y - b.y)

/-- One step of the nearest-node scan: keep the closer of the best candidate
so far and the next node. -/
def nearestStep (p : XY) (acc : Option (Int × Rat)) (n : Int × XY) :
    Option (Int × Rat) :=
  match acc with
  | none => some (n.1, distSq n.2 p)
  | some (i, dbest) =>
    if distSq n.2 p < dbest then some (n.1, distSq n.2 p)
    else some (i, dbest)

/-- The nearest network node to a query point: the id and squared distance of
the first node attaining the minimum squared Euclidean distance; `none` for an
empty node set. -/
def nearestNode (nodes : List (Int × XY)) (p : XY) : Option (Int × Rat) :=
  nodes.foldl (nearestStep p) none

/-- Modelled from the spec: the per-point behaviour of the engine call
`_pyaccess.xy_to_node(xys, mapping_distance, graph)`, which is not in src/.
Per the spec it maps each coordinate to its nearest node and yields the
sentinel -1 ("no match") exactly when a finite `mapping_distance` is given and
the nearest node lies farther than it (compared here on squared distances, to
stay within `Rat`); with the unbounded sentinel -1 every point with a nearest
node receives that node. -/
def mapOne (nodes : List (Int × XY)) (mapping_distance : Rat) (p : XY) : Int :=
  match nearestNode nodes p with
  | none => -1
  | some (i, dsq) =>
    if mapping_distance = -1 then i
    else if dsq ≤ mapping_distance * mapping_distance then i
    else -1

/-- Modelled from the spec: `_pyaccess.xy_to_node` over a whole coordinate
frame — `mapToNearestNode(coordinates, maxMappingDistance, graph) → dense int
array`, "-1" denoting no match, same order and length as the input. -/
def xy_to_node (nodes : List (Int × XY)) (pts : List XY)
    (mapping_distance : Rat) : List Int :=
  pts.map (mapOne nodes mapping_distance)

/-- `Network.get_node_ids(x_col, y_col, mapping_distance)` (pandana.py lines
290-326): drops rows with a missing coordinate (`dropna(how='any')`), maps the
remaining coordinates through the engine, builds
`pd.Series(node_ids, index=xys.index)` and returns `s[s != -1]`, dropping the
unmatched points.  A point row is a (pandas index key, optional coordinates)
pair; the result is the list of (index key, node id) pairs of the Series. -/
def get_node_ids (nodes : List (Int × XY)) (pts : List (Nat × Option XY))
    (mapping_distance : Rat) : List (Nat × Int) :=
  let xys := pts.filterMap (fun p => p.2.map (fun xy => (p.1, xy)))
  let ids := xy_to_node nodes (xys.map Prod.snd) mapping_distance
  ((xys.map Prod.fst).zip ids).filter (fun q => q.2 != -1)

lemma nearestStep_isSome (p : XY) (acc : Option (Int × Rat)) (n : Int × XY) :
    (nearestStep p acc n).isSome := by
  cases acc with
  | none => rfl
  | some b =>
    obtain ⟨i, dbest⟩ := b
    dsimp [nearestStep]
    split <;> rfl

lemma foldl_nearestStep_isSome (p : XY) :
    ∀ (l : List (Int × XY)) (acc : Option (Int × Rat)), acc.isSome →
      (l.foldl (nearestStep p) acc).isSome := by
  intro l
  induction l with
  | nil => intro acc h; exact h
  | cons n t ih => intro acc h; exact ih _ (nearestStep_isSome p acc n)

lemma nearestNode_isSome (nodes : List (Int × XY)) (p : XY)
    (h : nodes ≠ []) : (nearestNode nodes p).isSome := by
  cases nodes with
  | nil => exact absurd rfl h
  | cons n t =>
    exact foldl_nearestStep_isSome p t _ (nearestStep_isSome p none n)

lemma foldl_nearestStep_mem (p : XY) :
    ∀ (l : List (Int × XY)) (acc : Option (Int × Rat)) (i : Int) (d : Rat),
      l.foldl (nearestStep p) acc = some (i, d) →
      acc = some (i, d) ∨ i ∈ l.map Prod.fst := by
  intro l
  induction l with
  | nil => intro acc i d h; exact Or.inl h
  | cons n t ih =>
    intro acc i d h
    rcases ih _ i d h with h1 | h1
    · cases acc with
      | none =>
        simp only [nearestStep] at h1
        cases h1
        right; simp
      | some b =>
        obtain ⟨j, db⟩ := b
        simp only [nearestStep] at h1
        split at h1
        · cases h1; right; simp
        · left; exact h1
    · right; simp [h1]

lemma nearestNode_mem (nodes : List (Int × XY)) (p : XY) (i : Int) (d : Rat)
    (h : nearestNode nodes p = some (i, d)) : i ∈ nodes.map Prod.fst := by
  rcases foldl_nearestStep_mem p nodes none i d h with h1 | h1
  · cases h1
  · exact h1

lemma get_node_ids_eq (nodes : List (Int × XY)) (pts : List (Nat × Option XY))
    (md : Rat) :
    get_node_ids nodes pts md =
      ((pts.filterMap (fun p => p.2.map (fun xy => (p.1, xy)))).map
        (fun p => (p.1, mapOne nodes md p.2))).filter (fun q => q.2 != -1) := by
  simp only [get_node_ids, xy_to_node, List.map_map, List.zip_map',
    Function.comp]

lemma keys_filterMap_sublist (pts : List (Nat × Option XY)) :
    ((pts.filterMap (fun p => p.2.map (fun xy => (p.1, xy)))).map
      Prod.fst).Sublist (pts.map Prod.fst) := by
  induction pts with
  | nil => simp
  | cons p t ih =>
    cases h : p.2 with
    | none =>
      simp only [List.filterMap_cons, h, Option.map_none', List.map_cons]
      exact ih.cons _
    | some xy =>
      simp only [List.filterMap_cons, h, Option.map_some', List.map_cons]
      exact ih.cons₂ _

/-- C4: with the unbounded sentinel -1 (and node ids distinct from the
sentinel), `get_node_ids` matches every query point that survives the
missing-coordinate drop, in order; with a finite mapping distance, a point
whose nearest node lies farther than the threshold is excluded from the
returned series rather than assigned a forced nearest node. -/
theorem C4_get_node_ids_matching (nodes : List (Int × XY))
    (pts : List (Nat × Option XY)) (md : Rat) :
    (md = -1 → nodes ≠ [] → (-1 : Int) ∉ nodes.map Prod.fst →
      (get_node_ids nodes pts md).map Prod.fst =
        (pts.filterMap (fun p => p.2.map (fun xy => (p.1, xy)))).map
          Prod.fst) ∧
    (∀ k xy i dsq, (pts.map Prod.fst).Nodup → (k, some xy) ∈ pts →
      nearestNode nodes xy = some (i, dsq) → md ≠ -1 → ¬ dsq ≤ md * md →
      k ∉ (get_node_ids nodes pts md).map Prod.fst) := by
  constructor
  · intro hmd hne hneg
    subst hmd
    rw [get_node_ids_eq]
    rw [List.filter_eq_self.mpr ?_]
    · simp
    · intro q hq
      simp only [List.mem_map] at hq
      obtain ⟨p, hp, rfl⟩ := hq
      simp only [bne_iff_ne, ne_eq]
      obtain ⟨⟨i, dsq⟩, hn⟩ :=
        Option.isSome_iff_exists.mp (nearestNode_isSome nodes p.2 hne)
      simp only [mapOne, hn, if_pos rfl]
      intro hcontra
      exact hneg (hcontra ▸ nearestNode_mem nodes p.2 i dsq hn)
  · intro k xy i dsq hnd hmem hnear hmd hfar hin
    have hxy : (k, xy) ∈
        pts.filterMap (fun p => p.2.map (fun xy => (p.1, xy))) :=
      List.mem_filterMap.mpr ⟨(k, some xy), hmem, rfl⟩
    rw [get_node_ids_eq] at hin
    simp only [List.mem_map] at hin
    obtain ⟨q, hq, hqk⟩ := hin
    rw [List.mem_filter] at hq
    obtain ⟨hq1, hq2⟩ := hq
    simp only [List.mem_map] at hq1
    obtain ⟨p, hp, rfl⟩ := hq1
    have hnodup : ((pts.filterMap
        (fun p => p.2.map (fun xy => (p.1, xy)))).map Prod.fst).Nodup :=
      hnd.sublist (keys_filterMap_sublist pts)
    have hpe : p = (k, xy) :=
      List.inj_on_of_nodup_map hnodup hp hxy hqk
    rw [hpe] at hq2
    simp only [mapOne, hnear, if_neg hmd, if_neg hfar] at hq2
    simp at hq2

/-- Witness for C4 on a concrete two-node network: with the unbounded sentinel
the one valid point is matched, and with threshold 2 a point at squared
distance 50 from its nearest node is excluded. -/
theorem C4_get_node_ids_matching_witness :
    (get_node_ids [(1, ⟨0, 0⟩), (2, ⟨10, 0⟩)]
        [(0, some ⟨1, 0⟩), (7, none)] (-1)).map Prod.fst =
      (([(0, some ⟨1, 0⟩), (7, none)] : List (Nat × Option XY)).filterMap
        (fun p => p.2.map (fun xy => (p.1, xy)))).map Prod.fst ∧
    0 ∉ (get_node_ids [(1, ⟨0, 0⟩), (2, ⟨10, 0⟩)]
        [(0, some ⟨5, 5⟩)] 2).map Prod.fst :=
  ⟨(C4_get_node_ids_matching [(1, ⟨0, 0⟩), (2, ⟨10, 0⟩)]
      [(0, some ⟨1, 0⟩), (7, none)] (-1)).1 rfl (by decide) (by decide),
   (C4_get_node_ids_matching [(1, ⟨0, 0⟩), (2, ⟨10, 0⟩)]
      [(0, some ⟨5, 5⟩)] 2).2 0 ⟨5, 5⟩ 1 50 (by decide) (by decide)
      (by norm_num [nearestNode, nearestStep, distSq]) (by norm_num)
      (by norm_num)⟩

/-- The module never defines a binding for the name `CAT_NAME_TO_IND`: it is
referenced at pandana.py lines 354, 355, 360 and 364 but assigned nowhere in
the module, so any evaluation of the name raises `NameError`.  Modelled as
the optional value of the module attribute, which is therefore `none`. -/
def CAT_NAME_TO_IND : Option (List (String × Nat)) := none

/-- Modelled from the spec: the engine call `_pyaccess.find_all_nearest_pois`
is not in src/; per the spec a nearest-facility search "Fails if category is
unconfigured or distance ≤ 0".  The per-node facility lists themselves are
beyond claims C7/C8 and are abstracted as the argument `res`. -/
def find_all_nearest_pois (distance : Rat) (catIdx : Nat)
    (res : List (List Rat)) : Option (List (List Rat)) :=
  if distance ≤ 0 then none else some res

/-- `Network.initialize_poi_category(category, xcol, ycol)` (pandana.py lines
353-361): its first statement evaluates `category not in CAT_NAME_TO_IND`,
which raises `NameError` when the name is undefined (`none`); only otherwise
would it register the category and call the engine.  The result is the
updated registry. -/
def initialize_poi_category (category : String) :
    Option (List (String × Nat)) :=
  match CAT_NAME_TO_IND with
  | none => none
  | some m =>
    if category ∈ m.map Prod.fst then some m
    else some (m ++ [(category, m.length)])

/-- `Network.compute_nearest_pois(distance, category)` (pandana.py lines
363-367): `assert category in CAT_NAME_TO_IND` evaluates the undefined module
name first (`NameError` when it is `none`), fails when the category is not
registered, and only then calls the engine. -/
def compute_nearest_pois (distance : Rat) (category : String)
    (res : List (List Rat)) : Option (List (List Rat)) :=
  match CAT_NAME_TO_IND with
  | none => none
  | some m =>
    match dictLookup m category with
    | none => none
    | some ind => find_all_nearest_pois distance ind res

/-- A POI category counts as configured when the module-level registry exists
and contains it. -/
def poi_category_configured (category : String) : Bool :=
  match CAT_NAME_TO_IND with
  | none => false
  | some m => (m.map Prod.fst).contains category

/-- C7: `compute_nearest_pois(distance, category)` fails whenever the category
has not been configured and whenever `distance ≤ 0`; a nearest-facility query
never proceeds for an unconfigured category. -/
theorem C7_compute_nearest_pois_validation (distance : Rat) (category : String)
    (res : List (List Rat)) :
    (poi_category_configured category = false →
      compute_nearest_pois distance category res = none) ∧
    (distance ≤ 0 → compute_nearest_pois distance category res = none) :=
  ⟨fun _ => rfl, fun _ => rfl⟩

/-- Witness for C7 at concrete inputs: a non-positive distance and an
unconfigured category both fail. -/
theorem C7_compute_nearest_pois_validation_witness :
    compute_nearest_pois 0 "food" [] = none ∧
    compute_nearest_pois 1 "food" [] = none :=
  ⟨(C7_compute_nearest_pois_validation 0 "food" []).2 (le_refl 0),
   (C7_compute_nearest_pois_validation 1 "food" []).1 rfl⟩

/-- C8: every call to `initialize_poi_category` raises `NameError` and every
call to `compute_nearest_pois` raises `NameError` regardless of arguments,
because both reference the module-level name `CAT_NAME_TO_IND`, which is never
defined anywhere in the module; no POI category can ever be registered or
queried through this interface. -/
theorem C8_poi_interface_always_name_error :
    (∀ category, initialize_poi_category category = none) ∧
    (∀ distance category res,
      compute_nearest_pois distance category res = none) :=
  ⟨fun _ => rfl, fun _ _ _ => rfl⟩

/-- C5: `reserve_num_graphs(num)` succeeds exactly once: it fails when the
capacity was already set (`MAX_NUM_NETWORKS ≠ 0`), fails when `num ≤ 0`, and on
success fixes `MAX_NUM_NETWORKS` to `num`, after which every further call
fails. -/
theorem C5_reserve_num_graphs_once (st : GlobalState) (num : Int) :
    (st.MAX_NUM_NETWORKS ≠ 0 → reserve_num_graphs st num = none) ∧
    (num ≤ 0 → reserve_num_graphs st num = none) ∧
    (∀ st', reserve_num_graphs st num = some st' →
      st'.MAX_NUM_NETWORKS = num ∧
      ∀ num', reserve_num_graphs st' num' = none) := by
  refine ⟨fun h => by simp [reserve_num_graphs, h], fun h => ?_, fun st' h => ?_⟩
  · simp only [reserve_num_graphs]
    split
    · rw [if_neg (by omega)]
    · rfl
  · simp only [reserve_num_graphs] at h
    split at h
    · split at h
      · cases h
        refine ⟨rfl, fun num' => ?_⟩
        simp only [reserve_num_graphs]
        rw [if_neg (by omega)]
      · cases h
    · cases h

/-- Witness for C5 at a concrete state: reserving a second time and reserving a
non-positive capacity both fail. -/
theorem C5_reserve_num_graphs_once_witness :
    reserve_num_graphs ⟨4, 0⟩ 2 = none ∧ reserve_num_graphs ⟨0, 0⟩ (-1) = none :=
  ⟨(C5_reserve_num_graphs_once ⟨4, 0⟩ 2).1 (by decide),
   (C5_reserve_num_graphs_once ⟨0, 0⟩ (-1)).2.1 (by decide)⟩

/-- C6: once capacity has been reserved, a construction attempt with
`NUM_NETWORKS ≥ MAX_NUM_NETWORKS` fails, and a successful construction takes
slot `NUM_NETWORKS` (the next sequential index, starting from 0) and only
increments the count, leaving the capacity unchanged; the module has no
operation that removes a graph or decreases the count, so slots are stable and
distinct. -/
theorem C6_capacity_exceeded_fatal (st : GlobalState)
    (h : st.MAX_NUM_NETWORKS ≠ 0) :
    (st.NUM_NETWORKS ≥ st.MAX_NUM_NETWORKS → network_init st = none) ∧
    (st.NUM_NETWORKS < st.MAX_NUM_NETWORKS →
      network_init st =
        some ({ st with NUM_NETWORKS := st.NUM_NETWORKS + 1 },
              st.NUM_NETWORKS)) := by
  constructor
  · intro hge
    simp only [network_init, if_neg h]
    rw [if_neg (by omega)]
  · intro hlt
    simp only [network_init, if_neg h]
    rw [if_pos hlt]

/-- Witness for C6 at a concrete state: with capacity 1 already holding one
graph, the next construction fails; with capacity 2 it succeeds in slot 1. -/
theorem C6_capacity_exceeded_fatal_witness :
    network_init ⟨1, 1⟩ = none ∧ network_init ⟨2, 1⟩ = some (⟨2, 2⟩, 1) :=
  ⟨(C6_capacity_exceeded_fatal ⟨1, 1⟩ (by decide)).1 (by decide),
   (C6_capacity_exceeded_fatal ⟨2, 1⟩ (by decide)).2 (by decide)⟩

/-- C9: if `reserve_num_graphs` was never called, the first construction
succeeds with slot 0 after implicitly reserving capacity 1, and then both a
second construction and any `reserve_num_graphs` call fail. -/
theorem C9_first_network_implicit_reserve :
    network_init initState = some (⟨1, 1⟩, 0) ∧
    network_init ⟨1, 1⟩ = none ∧
    ∀ num, reserve_num_graphs ⟨1, 1⟩ num = none := by
  refine ⟨by decide, by decide, fun num => ?_⟩
  simp [reserve_num_graphs]

end Pandana
